import Mathlib

/-!
# aufs/go/main.go : the Parquet first-record demo

A shallow embedding of `main` from `src/aufs/go/main.go`.  The program is pure
glue around four library calls, so `main` is modelled as a function of the
answers those calls give (`Responses`) to the observable behaviour of the
process (`Run`): the sequence of calls and writes it performs, the deferred
calls still waiting when the process ends, and the way it ends.

Go semantics that the source relies on and that are made explicit here:

* `defer f()` pushes `f` on a stack; the stack is run last-in-first-out when
  the surrounding function returns;
* `log.Fatalf` writes one line through the standard logger (whose stream is
  standard error) and then calls `os.Exit(1)`, which ends the process at once
  without running deferred calls;
* `log.Println` writes one line through the standard logger and continues;
* `int(x)` on an `int64` keeps the low `w` bits, where `w` is the width of
  `int` on the platform (32 or 64), read as a two's complement number;
* a `main` that returns ends the process with status 0.
-/

namespace Aufs

/-! ## Data model -/

/-- Calls made to the collaborators and writes made to the two streams, in the
order in which the process performs them. -/
inductive Event where
  /-- The call `local.NewLocalFileReader(path)`. -/
  | openFile (path : String)
  /-- The call `reader.NewParquetReader(fr, nil, np)`. -/
  | newParquetReader (np : Int)
  /-- The call `pr.GetNumRows()`. -/
  | getNumRows
  /-- The call `pr.Read(&result)`. -/
  | read
  /-- The call `pr.ReadStop()`. -/
  | readStop
  /-- The call `fr.Close()`. -/
  | close
  /-- One message handed to the standard logger, which writes it to standard
  error as a single line (after its timestamp header). -/
  | stderr (msg : String)
  /-- Text written to standard output. -/
  | stdout (text : String)
  deriving DecidableEq, Repr

/-- The two calls that `main` defers. -/
inductive Deferred where
  /-- From `defer fr.Close()`. -/
  | frClose
  /-- From `defer pr.ReadStop()`. -/
  | prReadStop
  deriving DecidableEq, Repr

/-- The call performed when a deferred entry is run. -/
def Deferred.event : Deferred → Event
  | .frClose => .close
  | .prReadStop => .readStop

/-- What `pr.Read(&result)` leaves behind: the content of `result` afterwards
(`none` is the nil interface value) and the returned error (`none` is nil). -/
structure ReadResponse (V : Type) where
  result : Option V
  err : Option String
  deriving DecidableEq, Repr

/-- The answers of the collaborators.  Errors are represented by the text of
`err.Error()`; `none` stands for a nil error. -/
structure Responses (V : Type) where
  /-- Error returned by `local.NewLocalFileReader`. -/
  openErr : Option String
  /-- Error returned by `reader.NewParquetReader`. -/
  newReaderErr : Option String
  /-- Value returned by `pr.GetNumRows()` (an `int64`). -/
  numRows : Int
  /-- Outcome of `pr.Read(&result)`. -/
  readResp : ReadResponse V
  deriving DecidableEq, Repr

/-- The range of `int64`. -/
def IsInt64 (n : Int) : Prop := -(2 ^ 63) ≤ n ∧ n < 2 ^ 63

instance (n : Int) : Decidable (IsInt64 n) := by
  unfold IsInt64; infer_instance

/-- Running state of the process: what it has done so far and the stack of
deferred calls of `main` (most recently deferred first). -/
structure ProcState where
  trace : List Event
  deferred : List Deferred
  deriving DecidableEq, Repr

/-- How the process ended. -/
inductive Ending where
  /-- The function `main` returned. -/
  | returned
  /-- The call `os.Exit(code)` ended the process. -/
  | exited (code : Nat)
  deriving DecidableEq, Repr

/-- A finished run of the process. -/
structure Run where
  /-- Everything the process did, in order. -/
  trace : List Event
  /-- Deferred calls that were registered and never run. -/
  pending : List Deferred
  ending : Ending
  deriving DecidableEq, Repr

/-! ## Go runtime and library behaviour used by `main` -/

/-- The conversion `int(x)` for an `int64` value `x` on a platform whose `int`
is `w` bits wide: the low `w` bits, read as two's complement. -/
def goInt (w : Nat) (x : Int) : Int :=
  let m := x % 2 ^ w
  if m < 2 ^ (w - 1) then m else m - 2 ^ w

/-- The verb `%v` applied to an `interface{}` value: a nil interface prints as
`<nil>`, any other value by its default format `fmtV`. -/
def fmtValue {V : Type} (fmtV : V → String) : Option V → String
  | none => "<nil>"
  | some v => fmtV v

/-- Record a call or a write. -/
def ProcState.emit (s : ProcState) (e : Event) : ProcState :=
  { s with trace := s.trace ++ [e] }

/-- The statement `defer d`. -/
def ProcState.defer (s : ProcState) (d : Deferred) : ProcState :=
  { s with deferred := d :: s.deferred }

/-- The call `os.Exit(code)`: the process ends immediately, deferred calls are
not run. -/
def osExit (s : ProcState) (code : Nat) : Run :=
  { trace := s.trace, pending := s.deferred, ending := .exited code }

/-- The call `log.Fatalf`, given the already formatted message: one line to the
logger, then `os.Exit(1)`. -/
def logFatalf (s : ProcState) (msg : String) : Run :=
  osExit (s.emit (.stderr msg)) 1

/-- The call `log.Println`: one line to the logger. -/
def logPrintln (s : ProcState) (msg : String) : ProcState :=
  s.emit (.stderr msg)

/-- Return from `main`: the deferred calls run, most recent first, and the
process ends normally. -/
def funcReturn (s : ProcState) : Run :=
  { trace := s.trace ++ s.deferred.map Deferred.event, pending := [], ending := .returned }

/-- Exit status of the process. -/
def Run.exitStatus (r : Run) : Nat :=
  match r.ending with
  | .returned => 0
  | .exited code => code

/-! ## The program -/

/-- The constant `parquetFilePath`. -/
def parquetFilePath : String := "myfile.parquet"

/-- The function `main`, for a platform whose `int` has `w` bits, a default
formatter `fmtV` of decoded values, and the answers `env` of the library. -/
def main {V : Type} (w : Nat) (fmtV : V → String) (env : Responses V) : Run :=
  let s : ProcState := { trace := [], deferred := [] }
  -- fr, err := local.NewLocalFileReader(parquetFilePath)
  let s := s.emit (.openFile parquetFilePath)
  match env.openErr with
  | some e => logFatalf s ("Failed to open Parquet file: " ++ e)
  | none =>
    let s := s.defer .frClose
    -- pr, err := reader.NewParquetReader(fr, nil, 1)
    let s := s.emit (.newParquetReader 1)
    match env.newReaderErr with
    | some e => logFatalf s ("Failed to create Parquet reader: " ++ e)
    | none =>
      let s := s.defer .prReadStop
      -- numRows := int(pr.GetNumRows())
      let s := s.emit .getNumRows
      let numRows := goInt w env.numRows
      if numRows = 0 then
        funcReturn (logPrintln s "No records found in the Parquet file.")
      else
        -- var result interface{}; err = pr.Read(&result)
        let s := s.emit .read
        let result := env.readResp.result
        match env.readResp.err with
        | some e => logFatalf s ("Failed to read the Parquet file: " ++ e)
        | none =>
          funcReturn (s.emit (.stdout ("First record: " ++ fmtValue fmtV result ++ "\n")))

/-! ## Observations on a run -/

/-- Messages written to the error stream, in order. -/
def stderrOf : List Event → List String
  | [] => []
  | .stderr m :: es => m :: stderrOf es
  | _ :: es => stderrOf es

/-- Pieces of text written to standard output, in order. -/
def stdoutOf : List Event → List String
  | [] => []
  | .stdout t :: es => t :: stdoutOf es
  | _ :: es => stdoutOf es

/-- Everything written to standard output, as one string. -/
def stdoutText (es : List Event) : String :=
  String.join (stdoutOf es)

/-- The calls made to the collaborators, without the stream writes. -/
def callsOf : List Event → List Event
  | [] => []
  | .stderr _ :: es => callsOf es
  | .stdout _ :: es => callsOf es
  | e :: es => e :: callsOf es

/-- Number of times a given call occurs in a trace. -/
def countOf (e : Event) (es : List Event) : Nat :=
  es.count e

/-- The text `e` occurs inside the message `msg`. -/
def ContainsText (msg e : String) : Prop :=
  e.data <:+: msg.data

/-! ## Sample answers of the library -/

/-- Default format used in the samples: decimal digits. -/
def fmtNat (n : Nat) : String := toString n

/-- Sample: the file cannot be opened. -/
def envOpenFails : Responses Nat :=
  { openErr := some "open myfile.parquet: no such file or directory",
    newReaderErr := none, numRows := 3, readResp := { result := none, err := none } }

/-- Sample: the file opens, its footer is rejected. -/
def envBadFooter : Responses Nat :=
  { openErr := none, newReaderErr := some "invalid footer",
    numRows := 3, readResp := { result := none, err := none } }

/-- Sample: a file without rows. -/
def envEmpty : Responses Nat :=
  { openErr := none, newReaderErr := none, numRows := 0,
    readResp := { result := none, err := none } }

/-- Sample: three rows, the read fails and leaves a value behind. -/
def envReadFails : Responses Nat :=
  { openErr := none, newReaderErr := none, numRows := 3,
    readResp := { result := some 5, err := some "unexpected EOF" } }

/-- Sample: three rows, the read gives the value 7. -/
def envThreeRows : Responses Nat :=
  { openErr := none, newReaderErr := none, numRows := 3,
    readResp := { result := some 7, err := none } }

/-- Sample: one row, the read gives the value 7. -/
def envOneRow : Responses Nat :=
  { openErr := none, newReaderErr := none, numRows := 1,
    readResp := { result := some 7, err := none } }

/-- Sample: a negative row count. -/
def envNegative : Responses Nat :=
  { openErr := none, newReaderErr := none, numRows := -4,
    readResp := { result := some 7, err := none } }

/-- Sample: a valid file of `2 ^ 32` rows. -/
def envHugeRows : Responses Nat :=
  { openErr := none, newReaderErr := none, numRows := 4294967296,
    readResp := { result := some 7, err := none } }

/-- Sample: `2 ^ 32` rows and a library whose read would fail. -/
def envHugeReadFails : Responses Nat :=
  { openErr := none, newReaderErr := none, numRows := 4294967296,
    readResp := { result := none, err := some "unexpected EOF" } }

/-- The run reports an empty file: the message of the branch `numRows == 0` is
among those written to the error stream. -/
def ReportsNoRecords (r : Run) : Prop :=
  "No records found in the Parquet file." ∈ stderrOf r.trace

instance (r : Run) : Decidable (ReportsNoRecords r) := by
  unfold ReportsNoRecords; infer_instance

/-! ## The five paths through `main` -/

section Paths

variable {V : Type} (w : Nat) (fmtV : V → String) (env : Responses V)

/-- Path 1: the open fails. -/
theorem main_openFails (e : String) (ho : env.openErr = some e) :
    main w fmtV env =
      { trace := [.openFile "myfile.parquet", .stderr ("Failed to open Parquet file: " ++ e)],
        pending := [],
        ending := .exited 1 } := by
  simp [main, ho, logFatalf, osExit, ProcState.emit, parquetFilePath]

/-- Path 2: the open succeeds, the construction of the reader fails. -/
theorem main_newReaderFails (e : String) (ho : env.openErr = none)
    (hr : env.newReaderErr = some e) :
    main w fmtV env =
      { trace := [.openFile "myfile.parquet", .newParquetReader 1,
                  .stderr ("Failed to create Parquet reader: " ++ e)],
        pending := [.frClose],
        ending := .exited 1 } := by
  simp [main, ho, hr, logFatalf, osExit, ProcState.emit, ProcState.defer, parquetFilePath]

/-- Path 3: the converted row count is zero. -/
theorem main_noRecords (ho : env.openErr = none) (hr : env.newReaderErr = none)
    (hn : goInt w env.numRows = 0) :
    main w fmtV env =
      { trace := [.openFile "myfile.parquet", .newParquetReader 1, .getNumRows,
                  .stderr "No records found in the Parquet file.", .readStop, .close],
        pending := [],
        ending := .returned } := by
  simp [main, ho, hr, hn, funcReturn, logPrintln, ProcState.emit, ProcState.defer,
    parquetFilePath, Deferred.event]

/-- Path 4: the read fails. -/
theorem main_readFails (e : String) (ho : env.openErr = none) (hr : env.newReaderErr = none)
    (hn : goInt w env.numRows ≠ 0) (hd : env.readResp.err = some e) :
    main w fmtV env =
      { trace := [.openFile "myfile.parquet", .newParquetReader 1, .getNumRows, .read,
                  .stderr ("Failed to read the Parquet file: " ++ e)],
        pending := [.prReadStop, .frClose],
        ending := .exited 1 } := by
  simp [main, ho, hr, hn, hd, logFatalf, osExit, ProcState.emit, ProcState.defer,
    parquetFilePath]

/-- Path 5: the read succeeds. -/
theorem main_readSucceeds (ho : env.openErr = none) (hr : env.newReaderErr = none)
    (hn : goInt w env.numRows ≠ 0) (hd : env.readResp.err = none) :
    main w fmtV env =
      { trace := [.openFile "myfile.parquet", .newParquetReader 1, .getNumRows, .read,
                  .stdout ("First record: " ++ fmtValue fmtV env.readResp.result ++ "\n"),
                  .readStop, .close],
        pending := [],
        ending := .returned } := by
  simp [main, ho, hr, hn, hd, funcReturn, ProcState.emit, ProcState.defer,
    parquetFilePath, Deferred.event]

end Paths

/-! ## The conversion `int(x)` -/

/-- With a 64-bit `int` the conversion of an `int64` is the identity. -/
theorem goInt_64 (n : Int) (h : IsInt64 n) : goInt 64 n = n := by
  obtain ⟨h1, h2⟩ := h
  unfold goInt
  simp only
  split_ifs with hc <;> omega

/-- The conversion gives zero exactly for the multiples of `2 ^ w`. -/
theorem goInt_eq_zero_iff (w : Nat) (n : Int) :
    goInt w n = 0 ↔ n % 2 ^ w = 0 := by
  have hpos : (0 : Int) < 2 ^ w := by positivity
  have hlt : n % 2 ^ w < 2 ^ w := Int.emod_lt_of_pos n hpos
  have hhalf : (0 : Int) < 2 ^ (w - 1) := by positivity
  unfold goInt
  simp only
  split_ifs with hc
  · rfl
  · constructor
    · intro h; omega
    · intro h; omega

/-- A message that ends with the text of the error contains it. -/
theorem containsText_append (p e : String) : ContainsText (p ++ e) e := by
  unfold ContainsText
  exact ⟨p.data, [], by simp⟩

/-- Zero converts to zero at every width. -/
theorem goInt_zero (w : Nat) : goInt w 0 = 0 := by
  rw [goInt_eq_zero_iff]; simp

/-! ## Exit status and diagnostics -/

/-- The exit status is 0 exactly when the open and the construction of the
reader succeed and the converted row count is 0 or the read succeeds. -/
theorem exitStatus_eq_zero_iff {V : Type} (w : Nat) (fmtV : V → String)
    (env : Responses V) :
    (main w fmtV env).exitStatus = 0 ↔
      env.openErr = none ∧ env.newReaderErr = none ∧
        (goInt w env.numRows = 0 ∨ env.readResp.err = none) := by
  cases ho : env.openErr with
  | some e => simp [main_openFails w fmtV env e ho, Run.exitStatus]
  | none =>
    cases hr : env.newReaderErr with
    | some e => simp [main_newReaderFails w fmtV env e ho hr, Run.exitStatus]
    | none =>
      by_cases hg : goInt w env.numRows = 0
      · simp [main_noRecords w fmtV env ho hr hg, Run.exitStatus, hg]
      · cases hd : env.readResp.err with
        | some e => simp [main_readFails w fmtV env e ho hr hg hd, Run.exitStatus, hg]
        | none => simp [main_readSucceeds w fmtV env ho hr hg hd, Run.exitStatus]

/-- Claim C1 fails on the code. With a 32-bit `int`, a row count of `2 ^ 32`
and a library whose read would fail, the open and the construction of the
reader succeed, the row count is not 0, the read does not succeed, and yet the
exit status is 0: the count converts to 0 and the program reports an empty
file. -/
theorem exit_zero_without_zero_rows :
    envHugeReadFails.openErr = none ∧ envHugeReadFails.newReaderErr = none ∧
    envHugeReadFails.numRows ≠ 0 ∧ envHugeReadFails.readResp.err ≠ none ∧
    IsInt64 envHugeReadFails.numRows ∧
    (main 32 fmtNat envHugeReadFails).exitStatus = 0 ∧
    ¬ ((main 32 fmtNat envHugeReadFails).exitStatus = 0 ↔
        envHugeReadFails.openErr = none ∧ envHugeReadFails.newReaderErr = none ∧
          (envHugeReadFails.numRows = 0 ∨ envHugeReadFails.readResp.err = none)) := by
  decide

/-- Claim C1 as amended. For an `int` of any width `w` and every combination
of answers of the library, the exit status is 0 exactly when the open and the
construction of the reader succeed and the row count converted to `int` is 0
or the read succeeds; with a 64-bit `int` the converted count is 0 exactly when
the row count is 0. When the open, the construction of the reader or the read
fails, the exit status is not 0 and exactly one message, containing the text of
the error, goes to the error stream. -/
theorem exit_status_and_diagnostic {V : Type} (w : Nat) (fmtV : V → String)
    (env : Responses V) :
    ((main w fmtV env).exitStatus = 0 ↔
        env.openErr = none ∧ env.newReaderErr = none ∧
          (goInt w env.numRows = 0 ∨ env.readResp.err = none)) ∧
    (IsInt64 env.numRows →
        ((main 64 fmtV env).exitStatus = 0 ↔
          env.openErr = none ∧ env.newReaderErr = none ∧
            (env.numRows = 0 ∨ env.readResp.err = none))) ∧
    (∀ e, env.openErr = some e →
        (main w fmtV env).exitStatus ≠ 0 ∧
          ∃ msg, stderrOf (main w fmtV env).trace = [msg] ∧ ContainsText msg e) ∧
    (∀ e, env.openErr = none → env.newReaderErr = some e →
        (main w fmtV env).exitStatus ≠ 0 ∧
          ∃ msg, stderrOf (main w fmtV env).trace = [msg] ∧ ContainsText msg e) ∧
    (∀ e, env.openErr = none → env.newReaderErr = none → goInt w env.numRows ≠ 0 →
        env.readResp.err = some e →
        (main w fmtV env).exitStatus ≠ 0 ∧
          ∃ msg, stderrOf (main w fmtV env).trace = [msg] ∧ ContainsText msg e) := by
  refine ⟨exitStatus_eq_zero_iff w fmtV env, ?_, ?_, ?_, ?_⟩
  · intro hn
    rw [exitStatus_eq_zero_iff 64 fmtV env, goInt_64 env.numRows hn]
  · intro e ho
    rw [main_openFails w fmtV env e ho]
    exact ⟨by simp [Run.exitStatus], _, rfl, containsText_append _ e⟩
  · intro e ho hr
    rw [main_newReaderFails w fmtV env e ho hr]
    exact ⟨by simp [Run.exitStatus], _, rfl, containsText_append _ e⟩
  · intro e ho hr hg hd
    rw [main_readFails w fmtV env e ho hr hg hd]
    exact ⟨by simp [Run.exitStatus], _, rfl, containsText_append _ e⟩

/-- Instance of the amended claim C1: with a 64-bit `int` the sample whose read
fails ends with a status other than 0 and one message on the error stream. -/
theorem exit_status_and_diagnostic_witness :
    envReadFails.openErr = none ∧ envReadFails.newReaderErr = none ∧
    goInt 64 envReadFails.numRows ≠ 0 ∧
    envReadFails.readResp.err = some "unexpected EOF" ∧
    ((main 64 fmtNat envReadFails).exitStatus ≠ 0 ∧
      ∃ msg, stderrOf (main 64 fmtNat envReadFails).trace = [msg] ∧
        ContainsText msg "unexpected EOF") :=
  ⟨rfl, rfl, by decide, rfl,
    (exit_status_and_diagnostic 64 fmtNat envReadFails).2.2.2.2
      "unexpected EOF" rfl rfl (by decide) rfl⟩

/-! ## Cleanup on the fatal paths -/

/-- Claim C2, evaluated on the code. When the construction of the reader fails
after a successful open, the process ends with status 1 and `fr.Close` is never
called: the deferred call is still pending. When the read fails, neither
`pr.ReadStop` nor `fr.Close` is called. -/
theorem fatal_exit_skips_deferred_cleanup :
    (main 64 fmtNat envBadFooter).ending = .exited 1 ∧
    Event.close ∉ (main 64 fmtNat envBadFooter).trace ∧
    (main 64 fmtNat envBadFooter).pending = [.frClose] ∧
    (main 64 fmtNat envReadFails).ending = .exited 1 ∧
    Event.readStop ∉ (main 64 fmtNat envReadFails).trace ∧
    Event.close ∉ (main 64 fmtNat envReadFails).trace ∧
    (main 64 fmtNat envReadFails).pending = [.prReadStop, .frClose] := by
  decide

/-! ## The empty file -/

/-- Claim C3. When the open and the construction of the reader succeed and the
row count is 0, `main` issues no read, writes nothing to standard output, logs
the single message "No records found in the Parquet file." and returns, so the
exit status is 0. -/
theorem zero_rows_reported_as_empty {V : Type} (w : Nat) (fmtV : V → String)
    (env : Responses V) (ho : env.openErr = none) (hr : env.newReaderErr = none)
    (hz : env.numRows = 0) :
    Event.read ∉ (main w fmtV env).trace ∧
    stdoutOf (main w fmtV env).trace = [] ∧
    stdoutText (main w fmtV env).trace = "" ∧
    stderrOf (main w fmtV env).trace = ["No records found in the Parquet file."] ∧
    (main w fmtV env).ending = .returned ∧
    (main w fmtV env).exitStatus = 0 := by
  have hg : goInt w env.numRows = 0 := by rw [hz]; exact goInt_zero w
  rw [main_noRecords w fmtV env ho hr hg]
  refine ⟨by simp, rfl, rfl, rfl, rfl, rfl⟩

/-- Instance of claim C3 on the sample empty file. -/
theorem zero_rows_reported_as_empty_witness :
    envEmpty.openErr = none ∧ envEmpty.newReaderErr = none ∧ envEmpty.numRows = 0 ∧
    stderrOf (main 64 fmtNat envEmpty).trace = ["No records found in the Parquet file."] ∧
    (main 64 fmtNat envEmpty).exitStatus = 0 :=
  ⟨rfl, rfl, rfl,
    (zero_rows_reported_as_empty 64 fmtNat envEmpty rfl rfl rfl).2.2.2.1,
    (zero_rows_reported_as_empty 64 fmtNat envEmpty rfl rfl rfl).2.2.2.2.2⟩

/-! ## Number of reads -/

/-- With the open and the construction of the reader successful, `main` issues
no read when the converted row count is 0 and exactly one read otherwise. -/
theorem countOf_read {V : Type} (w : Nat) (fmtV : V → String) (env : Responses V)
    (ho : env.openErr = none) (hr : env.newReaderErr = none) :
    countOf .read (main w fmtV env).trace = (if goInt w env.numRows = 0 then 0 else 1) := by
  by_cases hg : goInt w env.numRows = 0
  · rw [main_noRecords w fmtV env ho hr hg]
    simp [countOf, hg]
  · cases hd : env.readResp.err with
    | some e => rw [main_readFails w fmtV env e ho hr hg hd]; simp [countOf, hg]
    | none => rw [main_readSucceeds w fmtV env ho hr hg hd]; simp [countOf, hg]

/-- The row count 1 does not convert to 0 when `int` has at least one bit. -/
theorem goInt_one_ne_zero (w : Nat) (hw : 0 < w) : goInt w 1 ≠ 0 := by
  rw [Ne, goInt_eq_zero_iff]
  have h2 : (2 : Int) ≤ 2 ^ w := by
    calc (2 : Int) = 2 ^ 1 := by norm_num
      _ ≤ 2 ^ w := pow_le_pow_right₀ (by norm_num) hw
  rw [Int.emod_eq_of_lt (by norm_num) (by omega)]
  norm_num

/-- Claim C4 fails on the code. With a 32-bit `int` the valid sample file of
`2 ^ 32` rows gets no read at all (no read is issued, so none fails); with a
64-bit `int` the valid sample file of three rows gets one successful read, not
three. -/
theorem reads_differ_from_row_count :
    (IsInt64 envHugeRows.numRows ∧ envHugeRows.openErr = none ∧
      envHugeRows.newReaderErr = none ∧ envHugeRows.readResp.err = none ∧
      envHugeRows.numRows = 4294967296 ∧
      countOf .read (main 32 fmtNat envHugeRows).trace = 0 ∧
      (countOf .read (main 32 fmtNat envHugeRows).trace : Int) ≠ envHugeRows.numRows) ∧
    (IsInt64 envThreeRows.numRows ∧ envThreeRows.openErr = none ∧
      envThreeRows.newReaderErr = none ∧ envThreeRows.readResp.err = none ∧
      envThreeRows.numRows = 3 ∧
      countOf .read (main 64 fmtNat envThreeRows).trace = 1 ∧
      (countOf .read (main 64 fmtNat envThreeRows).trace : Int) ≠ envThreeRows.numRows) := by
  decide

/-- Claim C4 as amended. For every valid file (the open, the construction of
the reader and the read succeed) and an `int` of any width `w`, the number of
successful reads that `main` performs is 0 when the row count converted to
`int` is 0 and 1 otherwise, so never more than 1, and `main` then returns;
when `int` has at least one bit, that number equals the row count exactly when
the row count is 0 or 1. -/
theorem reads_on_valid_file {V : Type} (w : Nat) (fmtV : V → String) (env : Responses V)
    (ho : env.openErr = none) (hr : env.newReaderErr = none)
    (hd : env.readResp.err = none) :
    countOf .read (main w fmtV env).trace = (if goInt w env.numRows = 0 then 0 else 1) ∧
    countOf .read (main w fmtV env).trace ≤ 1 ∧
    (main w fmtV env).ending = .returned ∧
    (0 < w →
      ((countOf .read (main w fmtV env).trace : Int) = env.numRows ↔
        env.numRows = 0 ∨ env.numRows = 1)) := by
  have hc := countOf_read w fmtV env ho hr
  refine ⟨hc, ?_, ?_, ?_⟩
  · rw [hc]; split_ifs <;> omega
  · by_cases hg : goInt w env.numRows = 0
    · rw [main_noRecords w fmtV env ho hr hg]
    · rw [main_readSucceeds w fmtV env ho hr hg hd]
  · intro hw
    rw [hc]
    by_cases hg : goInt w env.numRows = 0
    · have h1 : env.numRows ≠ 1 := fun h => goInt_one_ne_zero w hw (h ▸ hg)
      simp only [hg, if_true, Nat.cast_zero]
      constructor
      · intro h; exact Or.inl h.symm
      · rintro (h | h)
        · exact h.symm
        · exact absurd h h1
    · have h0 : env.numRows ≠ 0 := fun h => hg (h ▸ goInt_zero w)
      simp only [hg, if_false, Nat.cast_one]
      constructor
      · intro h; exact Or.inr h.symm
      · rintro (h | h)
        · exact absurd h h0
        · exact h.symm

/-- Instance of the amended claim C4: the sample file of three rows gets one
successful read with a 64-bit `int`, the sample of one row as many reads as
rows with a 32-bit `int`. -/
theorem reads_on_valid_file_witness :
    envThreeRows.openErr = none ∧ envThreeRows.newReaderErr = none ∧
    envThreeRows.readResp.err = none ∧
    countOf .read (main 64 fmtNat envThreeRows).trace =
      (if goInt 64 envThreeRows.numRows = 0 then 0 else 1) ∧
    envOneRow.openErr = none ∧ envOneRow.newReaderErr = none ∧
    envOneRow.readResp.err = none ∧ 0 < 32 ∧
    (countOf .read (main 32 fmtNat envOneRow).trace : Int) = envOneRow.numRows :=
  ⟨rfl, rfl, rfl,
    (reads_on_valid_file 64 fmtNat envThreeRows rfl rfl rfl).1,
    rfl, rfl, rfl, by decide,
    ((reads_on_valid_file 32 fmtNat envOneRow rfl rfl rfl).2.2.2 (by decide)).2 (Or.inr rfl)⟩

/-- Claim C5 fails on the code. With a 32-bit `int` and a row count of
`2 ^ 32`, which is not 0, the open and the construction of the reader succeed
and `main` issues no read: it reports an empty file. -/
theorem no_read_for_nonzero_row_count :
    IsInt64 envHugeRows.numRows ∧ envHugeRows.openErr = none ∧
    envHugeRows.newReaderErr = none ∧ envHugeRows.numRows ≠ 0 ∧
    countOf .read (main 32 fmtNat envHugeRows).trace = 0 ∧
    countOf .read (main 32 fmtNat envHugeRows).trace ≠ 1 ∧
    ReportsNoRecords (main 32 fmtNat envHugeRows) := by
  decide

/-- Claim C5 as amended. When the open and the construction of the reader
succeed, for an `int` of any width `w`: if the row count converted to `int` is
not 0, `main` issues exactly one read, however large the row count is and
whatever the read answers; if the converted count is 0, it issues none. With a
64-bit `int` every row count other than 0 gives exactly one read. -/
theorem exactly_one_read {V : Type} (w : Nat) (fmtV : V → String) (env : Responses V)
    (ho : env.openErr = none) (hr : env.newReaderErr = none) :
    (goInt w env.numRows ≠ 0 → countOf .read (main w fmtV env).trace = 1) ∧
    (goInt w env.numRows = 0 → countOf .read (main w fmtV env).trace = 0) ∧
    (IsInt64 env.numRows → env.numRows ≠ 0 →
      countOf .read (main 64 fmtV env).trace = 1) := by
  refine ⟨?_, ?_, ?_⟩
  · intro hg
    rw [countOf_read w fmtV env ho hr, if_neg hg]
  · intro hg
    rw [countOf_read w fmtV env ho hr, if_pos hg]
  · intro hn hz
    have hg : goInt 64 env.numRows ≠ 0 := by rw [goInt_64 env.numRows hn]; exact hz
    rw [countOf_read 64 fmtV env ho hr, if_neg hg]

/-- Instance of the amended claim C5 on the sample file of three rows, for both
widths of `int`. -/
theorem exactly_one_read_witness :
    envThreeRows.openErr = none ∧ envThreeRows.newReaderErr = none ∧
    goInt 32 envThreeRows.numRows ≠ 0 ∧
    countOf .read (main 32 fmtNat envThreeRows).trace = 1 ∧
    IsInt64 envThreeRows.numRows ∧ envThreeRows.numRows ≠ 0 ∧
    countOf .read (main 64 fmtNat envThreeRows).trace = 1 :=
  ⟨rfl, rfl, by decide,
    (exactly_one_read 32 fmtNat envThreeRows rfl rfl).1 (by decide),
    by decide, by decide,
    (exactly_one_read 64 fmtNat envThreeRows rfl rfl).2.2 (by decide) (by decide)⟩

/-! ## The successful read -/

/-- Claim C6. For an `int` of any width, in every run in which the open and
the construction of the reader succeed, the row count is not 0, the read is
issued (the converted count is not 0) and succeeds with value `v`, the calls
to the collaborators are, in order, open of "myfile.parquet", construction of
the reader, row count, read (followed by the two cleanups), and standard output
is exactly "First record: ", the default format of `v` and a newline, written
in one piece. -/
theorem first_record_printed {V : Type} (w : Nat) (fmtV : V → String) (env : Responses V)
    (v : V) (ho : env.openErr = none) (hr : env.newReaderErr = none)
    (hg : goInt w env.numRows ≠ 0) (hd : env.readResp = { result := some v, err := none }) :
    env.numRows ≠ 0 ∧
    callsOf (main w fmtV env).trace =
        [.openFile "myfile.parquet", .newParquetReader 1, .getNumRows, .read,
          .readStop, .close] ∧
    stdoutOf (main w fmtV env).trace = ["First record: " ++ fmtV v ++ "\n"] ∧
    stdoutText (main w fmtV env).trace = "First record: " ++ fmtV v ++ "\n" := by
  have he : env.readResp.err = none := by rw [hd]
  have hv : env.readResp.result = some v := by rw [hd]
  have h0 : env.numRows ≠ 0 := fun h => hg (h ▸ goInt_zero w)
  rw [main_readSucceeds w fmtV env ho hr hg he, hv]
  refine ⟨h0, rfl, rfl, ?_⟩
  simp [stdoutText, stdoutOf, fmtValue, String.join]

/-- Instance of claim C6 on the sample file of three rows with a 32-bit
`int`. -/
theorem first_record_printed_witness :
    envThreeRows.openErr = none ∧ envThreeRows.newReaderErr = none ∧
    goInt 32 envThreeRows.numRows ≠ 0 ∧
    envThreeRows.readResp = { result := some 7, err := none } ∧
    stdoutText (main 32 fmtNat envThreeRows).trace = "First record: " ++ fmtNat 7 ++ "\n" :=
  ⟨rfl, rfl, by decide, rfl,
    (first_record_printed 32 fmtNat envThreeRows 7 rfl rfl (by decide) rfl).2.2.2⟩

/-! ## Failures stop the program where they are detected -/

/-- Claim C7. When the open fails, `main` constructs no reader, defers and
calls no close, asks for no row count and issues no read; when the open
succeeds and the construction of the reader fails, `main` asks for no row count
and issues no read. In both cases nothing goes to standard output. -/
theorem failure_stops_later_steps {V : Type} (w : Nat) (fmtV : V → String)
    (env : Responses V) :
    (∀ e, env.openErr = some e →
        (∀ np, Event.newParquetReader np ∉ (main w fmtV env).trace) ∧
        (main w fmtV env).pending = [] ∧
        Event.close ∉ (main w fmtV env).trace ∧
        Event.getNumRows ∉ (main w fmtV env).trace ∧
        Event.read ∉ (main w fmtV env).trace ∧
        stdoutOf (main w fmtV env).trace = []) ∧
    (∀ e, env.openErr = none → env.newReaderErr = some e →
        Event.getNumRows ∉ (main w fmtV env).trace ∧
        Event.read ∉ (main w fmtV env).trace ∧
        stdoutOf (main w fmtV env).trace = []) := by
  constructor
  · intro e ho
    rw [main_openFails w fmtV env e ho]
    simp [stdoutOf]
  · intro e ho hr
    rw [main_newReaderFails w fmtV env e ho hr]
    simp [stdoutOf]

/-- Instance of claim C7 on the two failing samples: no read is issued. -/
theorem failure_stops_later_steps_witness :
    envOpenFails.openErr = some "open myfile.parquet: no such file or directory" ∧
    Event.read ∉ (main 64 fmtNat envOpenFails).trace ∧
    envBadFooter.openErr = none ∧ envBadFooter.newReaderErr = some "invalid footer" ∧
    Event.read ∉ (main 64 fmtNat envBadFooter).trace :=
  ⟨rfl,
    ((failure_stops_later_steps 64 fmtNat envOpenFails).1 _ rfl).2.2.2.2.1,
    rfl, rfl,
    ((failure_stops_later_steps 64 fmtNat envBadFooter).2 _ rfl rfl).2.1⟩

/-- Claim C8. When the read returns an error, whatever value it leaves in
`result`, `main` writes nothing to standard output, has issued that one read
only, reports the error of the read in its single message to the error stream
and ends with status 1. -/
theorem read_error_is_fatal {V : Type} (w : Nat) (fmtV : V → String) (env : Responses V)
    (e : String) (ho : env.openErr = none) (hr : env.newReaderErr = none)
    (hg : goInt w env.numRows ≠ 0) (hd : env.readResp.err = some e) :
    stdoutOf (main w fmtV env).trace = [] ∧
    stdoutText (main w fmtV env).trace = "" ∧
    countOf .read (main w fmtV env).trace = 1 ∧
    stderrOf (main w fmtV env).trace = ["Failed to read the Parquet file: " ++ e] ∧
    (main w fmtV env).ending = .exited 1 ∧
    (main w fmtV env).exitStatus ≠ 0 := by
  rw [main_readFails w fmtV env e ho hr hg hd]
  refine ⟨rfl, rfl, by simp [countOf], rfl, rfl, by simp [Run.exitStatus]⟩

/-- Instance of claim C8 on the sample whose read fails after storing a value. -/
theorem read_error_is_fatal_witness :
    envReadFails.openErr = none ∧ envReadFails.newReaderErr = none ∧
    goInt 64 envReadFails.numRows ≠ 0 ∧ envReadFails.readResp.err = some "unexpected EOF" ∧
    envReadFails.readResp.result = some 5 ∧
    stdoutOf (main 64 fmtNat envReadFails).trace = [] ∧
    stderrOf (main 64 fmtNat envReadFails).trace =
      ["Failed to read the Parquet file: " ++ "unexpected EOF"] :=
  ⟨rfl, rfl, by decide, rfl, rfl,
    (read_error_is_fatal 64 fmtNat envReadFails "unexpected EOF" rfl rfl (by decide) rfl).1,
    (read_error_is_fatal 64 fmtNat envReadFails "unexpected EOF" rfl rfl (by decide) rfl).2.2.2.1⟩

/-! ## Order of the deferred cleanups -/

/-- Claim C9. Whenever `main` returns normally, its trace ends with
`pr.ReadStop` followed by `fr.Close`, neither call occurs earlier, so each is
made exactly once, after every read and every write, and no deferred call is
left pending. -/
theorem cleanups_run_in_reverse_order {V : Type} (w : Nat) (fmtV : V → String)
    (env : Responses V) (hret : (main w fmtV env).ending = .returned) :
    (∃ before, (main w fmtV env).trace = before ++ [.readStop, .close] ∧
        Event.readStop ∉ before ∧ Event.close ∉ before) ∧
    countOf .readStop (main w fmtV env).trace = 1 ∧
    countOf .close (main w fmtV env).trace = 1 ∧
    (main w fmtV env).pending = [] := by
  cases ho : env.openErr with
  | some e => rw [main_openFails w fmtV env e ho] at hret; cases hret
  | none =>
    cases hr : env.newReaderErr with
    | some e => rw [main_newReaderFails w fmtV env e ho hr] at hret; cases hret
    | none =>
      by_cases hg : goInt w env.numRows = 0
      · rw [main_noRecords w fmtV env ho hr hg]
        refine ⟨⟨[.openFile "myfile.parquet", .newParquetReader 1, .getNumRows,
          .stderr "No records found in the Parquet file."], rfl, by simp, by simp⟩,
          by simp [countOf], by simp [countOf], rfl⟩
      · cases hd : env.readResp.err with
        | some e => rw [main_readFails w fmtV env e ho hr hg hd] at hret; cases hret
        | none =>
          rw [main_readSucceeds w fmtV env ho hr hg hd]
          refine ⟨⟨[.openFile "myfile.parquet", .newParquetReader 1, .getNumRows, .read,
            .stdout ("First record: " ++ fmtValue fmtV env.readResp.result ++ "\n")],
            rfl, by simp, by simp⟩, by simp [countOf], by simp [countOf], rfl⟩

/-- Instance of claim C9 on the sample file of three rows. -/
theorem cleanups_run_in_reverse_order_witness :
    (main 64 (fun _ : Nat => "7") envThreeRows).ending = .returned ∧
    countOf .readStop (main 64 (fun _ : Nat => "7") envThreeRows).trace = 1 ∧
    countOf .close (main 64 (fun _ : Nat => "7") envThreeRows).trace = 1 :=
  ⟨by decide,
    (cleanups_run_in_reverse_order 64 (fun _ : Nat => "7") envThreeRows (by decide)).2.1,
    (cleanups_run_in_reverse_order 64 (fun _ : Nat => "7") envThreeRows (by decide)).2.2.1⟩

/-! ## The row count test -/

/-- The message of a failed read is not the message of the empty file. -/
theorem readFailure_ne_noRecords (e : String) :
    "Failed to read the Parquet file: " ++ e ≠ "No records found in the Parquet file." := by
  intro h
  have h2 := congrArg (fun t => t.data.head?) h
  simp [String.data_append] at h2

/-- With the open and the construction of the reader successful, the run
reports an empty file exactly when the converted row count is zero, and issues
a read exactly when it is not. -/
theorem reportsNoRecords_iff {V : Type} (w : Nat) (fmtV : V → String) (env : Responses V)
    (ho : env.openErr = none) (hr : env.newReaderErr = none) :
    (ReportsNoRecords (main w fmtV env) ↔ goInt w env.numRows = 0) ∧
    (Event.read ∈ (main w fmtV env).trace ↔ goInt w env.numRows ≠ 0) := by
  by_cases hg : goInt w env.numRows = 0
  · rw [main_noRecords w fmtV env ho hr hg]
    simp [ReportsNoRecords, stderrOf, hg]
  · cases hd : env.readResp.err with
    | some e =>
      rw [main_readFails w fmtV env e ho hr hg hd]
      simp [ReportsNoRecords, stderrOf, hg, (readFailure_ne_noRecords e).symm]
    | none =>
      rw [main_readSucceeds w fmtV env ho hr hg hd]
      simp [ReportsNoRecords, stderrOf, hg]

/-- Claim C10. For every `int64` row count `n`, when the open and the
construction of the reader succeed: with a 64-bit `int`, `main` takes the
"No records found" branch if and only if `n = 0`, and for negative `n` the
converted count is not zero and `main` issues a read instead; with a 32-bit
`int` the converted count is `n mod 2^32` read as a signed number and the
branch is taken exactly for the multiples of `2^32`. -/
theorem no_records_branch_iff {V : Type} (fmtV : V → String) (env : Responses V)
    (hn : IsInt64 env.numRows) (ho : env.openErr = none) (hr : env.newReaderErr = none) :
    (ReportsNoRecords (main 64 fmtV env) ↔ env.numRows = 0) ∧
    (env.numRows < 0 →
        goInt 64 env.numRows ≠ 0 ∧ Event.read ∈ (main 64 fmtV env).trace ∧
          ¬ ReportsNoRecords (main 64 fmtV env)) ∧
    goInt 32 env.numRows =
        (if env.numRows % 2 ^ 32 < 2 ^ 31 then env.numRows % 2 ^ 32
          else env.numRows % 2 ^ 32 - 2 ^ 32) ∧
    (ReportsNoRecords (main 32 fmtV env) ↔ (2 : Int) ^ 32 ∣ env.numRows) := by
  have h64 := goInt_64 env.numRows hn
  have hA := reportsNoRecords_iff 64 fmtV env ho hr
  have hB := reportsNoRecords_iff 32 fmtV env ho hr
  refine ⟨?_, ?_, rfl, ?_⟩
  · rw [hA.1, h64]
  · intro hneg
    have hg : goInt 64 env.numRows ≠ 0 := by rw [h64]; omega
    exact ⟨hg, hA.2.2 hg, fun h => hg (hA.1.1 h)⟩
  · rw [hB.1, goInt_eq_zero_iff, Int.dvd_iff_emod_eq_zero]

/-- Instance of claim C10 on the sample with a negative row count: a read is
issued. -/
theorem no_records_branch_iff_witness :
    IsInt64 envNegative.numRows ∧ envNegative.openErr = none ∧
    envNegative.newReaderErr = none ∧ envNegative.numRows < 0 ∧
    Event.read ∈ (main 64 fmtNat envNegative).trace :=
  ⟨by decide, rfl, rfl, by decide,
    ((no_records_branch_iff fmtNat envNegative (by decide) rfl rfl).2.1 (by decide)).2.1⟩

end Aufs
